import Mathlib

/-!
Shallow embedding of src/coop_controller.py (class CoopController), together
with proofs about its control logic.

Conventions used throughout:
* Python strings are Lean String values; Python None is Option.none.
* The persisted records door_state / door_mode are Option String values
  holding the raw file content (none means the file does not exist).
* The suntime library and the GPIO hardware are external collaborators;
  they enter as parameters (SunTimes, HwResult).
* A Python exception propagating out of a call is modelled by a Bool field
  named raised (or by Option.none for the pure decision helper), and the
  run loop's blanket except handler corresponds to observing raised = true.
-/

/-- Tokens OPEN, CLOSED (class constants, source lines 19-20). -/
def OPEN : String := "open"

/-- Token CLOSED (source line 20). -/
def CLOSED : String := "closed"

/-- Token AUTO (source line 21). -/
def AUTO : String := "auto"

/-- Token MANUAL (source line 22). -/
def MANUAL : String := "manual"

/-- door_states tuple (source line 60). -/
def door_states : List String := [OPEN, CLOSED]

/-- door_modes tuple (source line 61). -/
def door_modes : List String := [AUTO, MANUAL]

/-- Python str.strip() on a character list: drop whitespace at both ends. -/
def stripChars (l : List Char) : List Char :=
  ((l.dropWhile Char.isWhitespace).reverse.dropWhile Char.isWhitespace).reverse

/-- Python file.readline(): the first line of the content (the trailing
newline is irrelevant because strip removes it anyway). -/
def firstLine (l : List Char) : List Char :=
  l.takeWhile (fun c => c ≠ '\n')

/-- f.readline().strip() applied to a raw file content
(source lines 83 and 105). -/
def readRecord (s : String) : String :=
  String.mk (stripChars (firstLine s.data))

/-- Python s.split on a single separator character, keeping empty pieces,
as used for EARLIEST_OPEN.split on the colon (source line 142). -/
def splitColon : List Char → List (List Char)
  | [] => [[]]
  | c :: cs =>
    if c = ':' then [] :: splitColon cs
    else
      match splitColon cs with
      | [] => [[c]]
      | h :: t => (c :: h) :: t

/-- Value of a non-empty all-digit character list, in base 10. -/
def digitsVal (l : List Char) : Option Nat :=
  if l ≠ [] ∧ l.all Char.isDigit then
    some (l.foldl (fun n c => 10 * n + (c.toNat - 48)) 0)
  else none

/-- Python int(x) on a string piece: surrounding whitespace is allowed, an
optional sign, then decimal digits; anything else raises ValueError,
modelled as none.  (Digit-group underscores are not modelled.) -/
def pyInt (l : List Char) : Option Int :=
  match stripChars l with
  | '-' :: ds => (digitsVal ds).map (fun n => -(n : Int))
  | '+' :: ds => (digitsVal ds).map (fun n => (n : Int))
  | ds => (digitsVal ds).map (fun n => (n : Int))

/-- Source lines 142-145: hour, minute, second = (int(x) for x in
EARLIEST_OPEN.split on colon), then datetime.time(hour, minute, second).
The unpacking needs exactly three pieces, int() may raise ValueError, and
datetime.time raises ValueError outside the ranges 0-23 / 0-59 / 0-59; all
of these are caught by the except on line 149, modelled as none.  A
successful parse yields the time of day in seconds since midnight. -/
def parseHMS (s : String) : Option Int :=
  match splitColon s.data with
  | [h, m, sec] =>
    match pyInt h, pyInt m, pyInt sec with
    | some hh, some mm, some ss =>
      if 0 ≤ hh ∧ hh ≤ 23 ∧ 0 ≤ mm ∧ mm ≤ 59 ∧ 0 ≤ ss ∧ ss ≤ 59 then
        some (hh * 3600 + mm * 60 + ss)
      else none
    | _, _, _ => none
  | _ => none

/-- Configuration attributes consumed by calculate_sunrise_and_sunset.
latitude / longitude are the location the configuration carries;
EARLIEST_OPEN = none models a falsy configured value. -/
structure Config where
  latitude : ℚ
  longitude : ℚ
  BUFFER_AFTER_SUNSET : Int
  EARLIEST_OPEN : Option String

/-- External suntime library boundary: Sun(lat, lng).get_local_sunrise_time
and .get_local_sunset_time, as timestamps in seconds. -/
structure SunTimes where
  localSunrise : ℚ → ℚ → Int
  localSunset : ℚ → ℚ → Int

/-- The solar attributes set by calculate_sunrise_and_sunset.  The field
earliest_open_time is none exactly when the attribute
self.earliest_open_time was never assigned (source lines 140-152). -/
structure SolarAttrs where
  sunrise : Int
  sunset : Int
  sunset_with_buffer : Int
  earliest_open_time : Option Int
deriving DecidableEq

/-- Source lines 124-152.  Note line 126: sun = Sun(55.4, 12.3) passes the
literal coordinates 55.4 and 12.3 to the library, not the configured
latitude and longitude. -/
def calculate_sunrise_and_sunset (sun : SunTimes) (cfg : Config) : SolarAttrs :=
  let sunrise := sun.localSunrise (55.4 : ℚ) (12.3 : ℚ)
  let sunset := sun.localSunset (55.4 : ℚ) (12.3 : ℚ)
  { sunrise := sunrise
    sunset := sunset
    sunset_with_buffer := sunset + cfg.BUFFER_AFTER_SUNSET
    earliest_open_time :=
      match cfg.EARLIEST_OPEN with
      | none => none
      | some s => parseHMS s }

/-- Modelled from the spec's words (section 4.1): compute(latitude,
longitude, date) derives the window from the latitude and longitude given
in the configuration.  Stated only to compare with the source function
calculate_sunrise_and_sunset. -/
def calculate_from_config_coords (sun : SunTimes) (cfg : Config) : SolarAttrs :=
  let sunrise := sun.localSunrise cfg.latitude cfg.longitude
  let sunset := sun.localSunset cfg.latitude cfg.longitude
  { sunrise := sunrise
    sunset := sunset
    sunset_with_buffer := sunset + cfg.BUFFER_AFTER_SUNSET
    earliest_open_time :=
      match cfg.EARLIEST_OPEN with
      | none => none
      | some s => parseHMS s }

/-- The mutable per-object attributes of CoopController that the store and
door operations touch, together with the persisted files.  state / mode are
the in-memory last-applied values (source lines 25-26, default None);
state_file / mode_file hold the raw content of the two records (none means
the file does not exist); gpio_is_setup is set by init_gpio (source lines
29 and 78); sim is the simulation flag (source line 41). -/
structure Sys where
  state : Option String
  mode : Option String
  state_file : Option String
  mode_file : Option String
  gpio_is_setup : Bool
  sim : Bool
deriving DecidableEq

/-- Whether a block of GPIO calls raises (hardware is an external
collaborator; in simulation mode the block is skipped and cannot raise). -/
inductive HwResult
  | ok
  | fail
deriving DecidableEq

/-- Observable events of one call, mirroring the source's log lines and the
blocking sleep(TIME_TO_OPEN) that is the actuation delay. -/
inductive Ev
  | logOpening
  | logOpened
  | logClosing
  | logClosed
  | sleep
deriving DecidableEq

/-- Result of a stateful call: the object state afterwards, the events it
emitted, and whether an exception propagated out of it. -/
structure StepOut where
  sys : Sys
  evs : List Ev
  raised : Bool
deriving DecidableEq

/-- set_door_state (source lines 91-100): only a value contained in
door_states is stored; anything else (including None) returns False and
changes nothing.  The file receives the value plus a newline (line 96). -/
def set_door_state (σ : Sys) (v : Option String) : Sys × Bool :=
  match v with
  | some s =>
    if s ∈ door_states then
      ({σ with state := some s, state_file := some (s ++ "\n")}, true)
    else (σ, false)
  | none => (σ, false)

/-- set_door_mode (source lines 113-122), analogous to set_door_state. -/
def set_door_mode (σ : Sys) (v : Option String) : Sys × Bool :=
  match v with
  | some s =>
    if s ∈ door_modes then
      ({σ with mode := some s, mode_file := some (s ++ "\n")}, true)
    else (σ, false)
  | none => (σ, false)

/-- open_door (source lines 154-173).  It logs, returns at once when the
GPIO is not set up (lines 157-158), otherwise drives the motor (which can
raise when not simulating), sleeps for TIME_TO_OPEN, stops the motor
(which can also raise), and only then persists via set_door_state("open").
hw1 is the motor-run block before the sleep, hw2 the stop block after. -/
def open_door (σ : Sys) (hw1 hw2 : HwResult) : StepOut :=
  if σ.gpio_is_setup = false then
    ⟨σ, [Ev.logOpening], false⟩
  else if σ.sim = false ∧ hw1 = HwResult.fail then
    ⟨σ, [Ev.logOpening], true⟩
  else if σ.sim = false ∧ hw2 = HwResult.fail then
    ⟨σ, [Ev.logOpening, Ev.sleep], true⟩
  else
    ⟨(set_door_state σ (some OPEN)).1,
      [Ev.logOpening, Ev.sleep, Ev.logOpened], false⟩

/-- close_door (source lines 175-194), symmetric to open_door; it also
sleeps for TIME_TO_OPEN (line 186) and persists via
set_door_state("closed") only after the hardware calls succeed. -/
def close_door (σ : Sys) (hw1 hw2 : HwResult) : StepOut :=
  if σ.gpio_is_setup = false then
    ⟨σ, [Ev.logClosing], false⟩
  else if σ.sim = false ∧ hw1 = HwResult.fail then
    ⟨σ, [Ev.logClosing], true⟩
  else if σ.sim = false ∧ hw2 = HwResult.fail then
    ⟨σ, [Ev.logClosing, Ev.sleep], true⟩
  else
    ⟨(set_door_state σ (some CLOSED)).1,
      [Ev.logClosing, Ev.sleep, Ev.logClosed], false⟩

/-- check_door_state (source lines 80-89).  When the file exists, its first
line is stripped and returned only when it is one of the door_states; an
unrecognized value falls off the end of the function, i.e. returns None.
When the file does not exist, the door is opened and the literal "open" is
returned (an exception from open_door propagates). -/
def check_door_state (σ : Sys) (hw1 hw2 : HwResult) :
    Option String × StepOut :=
  match σ.state_file with
  | some c =>
    if readRecord c ∈ door_states then (some (readRecord c), ⟨σ, [], false⟩)
    else (none, ⟨σ, [], false⟩)
  | none =>
    let r := open_door σ hw1 hw2
    if r.raised then (none, r) else (some OPEN, r)

/-- check_door_mode (source lines 102-111).  Same shape as
check_door_state, except that the recovery on a missing file is
set_door_mode("auto") followed by returning the literal "auto". -/
def check_door_mode (σ : Sys) : Option String × Sys :=
  match σ.mode_file with
  | some c =>
    if readRecord c ∈ door_modes then (some (readRecord c), σ)
    else (none, σ)
  | none => (some AUTO, (set_door_mode σ (some AUTO)).1)

/-- What the auto branch decides to do. -/
inductive DoorAction
  | doClose
  | doOpen
  | doNothing
deriving DecidableEq

/-- The second elif condition (source lines 221-225): the chained
comparison sunrise < now < sunset_with_buffer is evaluated first; only
when it holds is self.earliest_open_time read, which raises AttributeError
(modelled by none) when that attribute was never assigned. -/
def cond2 (sunrise swb : Int) (eot : Option Int) (nowAbs nowTod : Int)
    (st : Option String) : Option Bool :=
  if sunrise < nowAbs ∧ nowAbs < swb then
    match eot with
    | none => none
    | some t => some (decide (t < nowTod) && decide (st = some CLOSED))
  else some false

/-- The auto-mode decision chain (source lines 218-232).  none models an
AttributeError escaping the decision; otherwise the chosen action. -/
def autoDecision (sunrise swb : Int) (eot : Option Int)
    (nowAbs nowTod : Int) (st : Option String) : Option DoorAction :=
  if nowAbs < sunrise ∧ st = some OPEN then some DoorAction.doClose
  else
    match cond2 sunrise swb eot nowAbs nowTod st with
    | none => none
    | some true => some DoorAction.doOpen
    | some false =>
      if swb < nowAbs ∧ st = some OPEN then some DoorAction.doClose
      else some DoorAction.doNothing

/-- One iteration of the body of run (source lines 196-250), i.e. one pass
through the try block without the trailing sleep.  The date-rollover
recompute (lines 205-212) is represented by the caller passing the current
SolarAttrs w; nowAbs is the timestamp of datetime.now().astimezone() and
nowTod its time of day, on the same scales as the window.  hw stands for
the health of every GPIO block this iteration.  raised = true means an
exception reached the blanket except on line 248 (logged, loop continues)
with the returned object state at the point of the raise. -/
def runStep (σ0 : Sys) (w : SolarAttrs) (nowAbs nowTod : Int)
    (hw : HwResult) : StepOut :=
  let p1 := check_door_mode σ0
  let σ1 := p1.2
  let σ2 := if σ1.mode ≠ p1.1 then (set_door_mode σ1 p1.1).1 else σ1
  if σ2.mode = some AUTO then
    let p2 := check_door_state σ2 hw hw
    let r1 := p2.2
    if r1.raised then ⟨r1.sys, r1.evs, true⟩
    else
      let σ3 :=
        if r1.sys.state ≠ p2.1 then (set_door_state r1.sys p2.1).1
        else r1.sys
      match autoDecision w.sunrise w.sunset_with_buffer
          w.earliest_open_time nowAbs nowTod σ3.state with
      | none => ⟨σ3, r1.evs, true⟩
      | some DoorAction.doClose =>
        let r2 := close_door σ3 hw hw
        ⟨r2.sys, r1.evs ++ r2.evs, r2.raised⟩
      | some DoorAction.doOpen =>
        let r2 := open_door σ3 hw hw
        ⟨r2.sys, r1.evs ++ r2.evs, r2.raised⟩
      | some DoorAction.doNothing => ⟨σ3, r1.evs, false⟩
  else if σ2.mode = some MANUAL then
    let p2 := check_door_state σ2 hw hw
    let r1 := p2.2
    if r1.raised then ⟨r1.sys, r1.evs, true⟩
    else if p2.1 ≠ r1.sys.state then
      if p2.1 = some OPEN then
        let r2 := open_door r1.sys hw hw
        ⟨r2.sys, r1.evs ++ r2.evs, r2.raised⟩
      else if p2.1 = some CLOSED then
        let r2 := close_door r1.sys hw hw
        ⟨r2.sys, r1.evs ++ r2.evs, r2.raised⟩
      else ⟨r1.sys, r1.evs, false⟩
    else ⟨r1.sys, r1.evs, false⟩
  else ⟨σ2, [], false⟩

/-!
Concrete fixtures used by the closed theorems below.
-/

/-- A sun model returning a fixed window (sunrise 600, sunset 900). -/
def sunFix : SunTimes := ⟨fun _ _ => 600, fun _ _ => 900⟩

/-- A sun model whose sunrise depends on the latitude it is asked about. -/
def sunProbe : SunTimes :=
  ⟨fun lat _ => if lat = (55.4 : ℚ) then 100 else 0, fun _ _ => 200⟩

/-- A sun model with constant times, for witnesses. -/
def sunConst : SunTimes := ⟨fun _ _ => 100, fun _ _ => 200⟩

/-- Configuration at latitude and longitude 0 with no earliest-open value. -/
def cfgZero : Config := ⟨0, 0, 0, none⟩

/-- Configuration with an unparsable EARLIEST_OPEN and a 100 second buffer. -/
def cfgBad : Config := ⟨0, 0, 100, some "garbage"⟩

/-- Configuration with no EARLIEST_OPEN and a 100 second buffer. -/
def cfgNoEarliest : Config := ⟨0, 0, 100, none⟩

/-- Configuration at the origin with buffer 5. -/
def cfgW1 : Config := ⟨0, 0, 5, none⟩

/-- Configuration at another location with the same buffer 5. -/
def cfgW2 : Config := ⟨50, 10, 5, none⟩

/-- A controller mid-run: door closed, auto mode, both records intact,
GPIO initialized, not simulating. -/
def sysClosedAuto : Sys :=
  ⟨some CLOSED, some AUTO, some "closed\n", some "auto\n", true, false⟩

/-- A controller in manual mode whose store was externally set to closed
while the last-applied state is open. -/
def sysManualPending : Sys :=
  ⟨some OPEN, some MANUAL, some "closed\n", some "manual\n", true, false⟩

/-- A controller whose two records hold an unrecognized token. -/
def sysGarbageRecords : Sys :=
  ⟨some OPEN, some AUTO, some "banana\n", some "banana\n", true, false⟩

/-- A fresh install at the first read: no records, GPIO not yet set up
(init_gpio runs only after construction, source lines 278-280). -/
def sysFresh : Sys := ⟨none, none, none, none, false, false⟩

/-- A fresh store but with the GPIO already initialized. -/
def sysFreshGpio : Sys := ⟨none, none, none, none, true, false⟩

/-!
Small evaluation lemmas shared by the proofs.
-/

theorem open_mem_door_states : OPEN ∈ door_states := by decide

theorem closed_mem_door_states : CLOSED ∈ door_states := by decide

theorem auto_mem_door_modes : AUTO ∈ door_modes := by decide

theorem manual_mem_door_modes : MANUAL ∈ door_modes := by decide

theorem readRecord_open_nl : readRecord (OPEN ++ "\n") = OPEN := by decide

theorem readRecord_closed_nl : readRecord (CLOSED ++ "\n") = CLOSED := by decide

theorem readRecord_auto_nl : readRecord (AUTO ++ "\n") = AUTO := by decide

theorem set_door_state_open_eq (σ : Sys) :
    set_door_state σ (some OPEN) =
      ({σ with state := some OPEN, state_file := some (OPEN ++ "\n")}, true) := by
  simp [set_door_state, open_mem_door_states]

theorem set_door_state_closed_eq (σ : Sys) :
    set_door_state σ (some CLOSED) =
      ({σ with state := some CLOSED, state_file := some (CLOSED ++ "\n")}, true) := by
  simp [set_door_state, closed_mem_door_states]

theorem set_door_mode_auto_eq (σ : Sys) :
    set_door_mode σ (some AUTO) =
      ({σ with mode := some AUTO, mode_file := some (AUTO ++ "\n")}, true) := by
  simp [set_door_mode, auto_mem_door_modes]

theorem closed_ne_open : CLOSED ≠ OPEN := by decide

theorem open_ne_closed : OPEN ≠ CLOSED := by decide

theorem manual_ne_auto : MANUAL ≠ AUTO := by decide

theorem check_door_mode_reads (σ : Sys) (d v : String)
    (hmf : σ.mode_file = some d) (hd : readRecord d = v)
    (hmem : v ∈ door_modes) :
    check_door_mode σ = (some v, σ) := by
  obtain ⟨st, md, sf, mf, g, sm⟩ := σ
  simp only at hmf
  subst hmf
  simp [check_door_mode, hd, hmem]

theorem check_door_state_reads (σ : Sys) (hw1 hw2 : HwResult) (c v : String)
    (hsf : σ.state_file = some c) (hc : readRecord c = v)
    (hmem : v ∈ door_states) :
    check_door_state σ hw1 hw2 = (some v, ⟨σ, [], false⟩) := by
  obtain ⟨st, md, sf, mf, g, sm⟩ := σ
  simp only at hsf
  subst hsf
  simp [check_door_state, hc, hmem]

theorem close_door_ok (σ : Sys) (hg : σ.gpio_is_setup = true) :
    close_door σ HwResult.ok HwResult.ok =
      ⟨{σ with state := some CLOSED, state_file := some (CLOSED ++ "\n")},
        [Ev.logClosing, Ev.sleep, Ev.logClosed], false⟩ := by
  simp [close_door, hg, set_door_state_closed_eq]

theorem open_door_ok (σ : Sys) (hg : σ.gpio_is_setup = true) :
    open_door σ HwResult.ok HwResult.ok =
      ⟨{σ with state := some OPEN, state_file := some (OPEN ++ "\n")},
        [Ev.logOpening, Ev.sleep, Ev.logOpened], false⟩ := by
  simp [open_door, hg, set_door_state_open_eq]

/-- C1 (amended): the solar window is independent of the configured
latitude and longitude — calculate_sunrise_and_sunset passes the fixed
literal coordinates 55.4 and 12.3 to the sun library, so two
configurations agreeing on the buffer and the earliest-open string yield
the same window, and the window is exactly the library's output at those
fixed coordinates, with sunset_with_buffer = sunset + buffer. -/
theorem sunWindow_independent_of_config_coords (sun : SunTimes) (c1 c2 : Config)
    (hb : c1.BUFFER_AFTER_SUNSET = c2.BUFFER_AFTER_SUNSET)
    (he : c1.EARLIEST_OPEN = c2.EARLIEST_OPEN) :
    calculate_sunrise_and_sunset sun c1 = calculate_sunrise_and_sunset sun c2 ∧
    (calculate_sunrise_and_sunset sun c1).sunrise =
      sun.localSunrise (55.4 : ℚ) (12.3 : ℚ) ∧
    (calculate_sunrise_and_sunset sun c1).sunset =
      sun.localSunset (55.4 : ℚ) (12.3 : ℚ) ∧
    (calculate_sunrise_and_sunset sun c1).sunset_with_buffer =
      sun.localSunset (55.4 : ℚ) (12.3 : ℚ) + c1.BUFFER_AFTER_SUNSET := by
  refine ⟨?_, rfl, rfl, rfl⟩
  simp [calculate_sunrise_and_sunset, hb, he]

/-- C1 witness: a concrete sun model and two configurations that differ in
latitude and longitude but share buffer and earliest-open produce the same
window. -/
theorem sunWindow_independent_of_config_coords_witness :
    calculate_sunrise_and_sunset sunConst cfgW1 =
      calculate_sunrise_and_sunset sunConst cfgW2 :=
  (sunWindow_independent_of_config_coords sunConst cfgW1 cfgW2 rfl rfl).1

/-- C1 counterexample: with a sun model that answers differently at the
configured coordinates (0, 0) than at (55.4, 12.3), the source function
disagrees with the spec-modelled variant that uses the configuration's
latitude and longitude, so the window is not computed from the configured
location. -/
theorem sunWindow_not_from_config_coords :
    calculate_sunrise_and_sunset sunProbe cfgZero ≠
      calculate_from_config_coords sunProbe cfgZero := by
  simp only [calculate_sunrise_and_sunset, calculate_from_config_coords,
    sunProbe, cfgZero]
  norm_num [SolarAttrs.mk.injEq]

/-- C2 (code_bug evaluation): with EARLIEST_OPEN = "garbage" the parse
fails and self.earliest_open_time is never assigned; on an iteration in
auto mode with the store reading closed and now strictly between sunrise
(600) and sunset_with_buffer (1000), the decision chain reads the missing
attribute, so the iteration raises (AttributeError, caught by the loop's
blanket except), emits no event — in particular the door is not opened —
and leaves the whole state unchanged.  The same window results from a
falsy EARLIEST_OPEN, so an absent value blocks opening identically. -/
theorem malformed_earliest_open_blocks_opening :
    parseHMS "garbage" = none ∧
    calculate_sunrise_and_sunset sunFix cfgBad = ⟨600, 900, 1000, none⟩ ∧
    calculate_sunrise_and_sunset sunFix cfgNoEarliest = ⟨600, 900, 1000, none⟩ ∧
    (600 : Int) < 800 ∧ (800 : Int) < 1000 ∧
    runStep sysClosedAuto (calculate_sunrise_and_sunset sunFix cfgBad)
        800 400 HwResult.ok =
      ⟨sysClosedAuto, [], true⟩ := by decide

/-- C3 (amended): when a backing record does not exist the read triggers
the default-recovery path — for state (with the actuator initialized and
healthy) the door is opened (the actuation sleep happens) and Open is
persisted in memory and on file; for mode, Auto is persisted and
returned.  When a record exists but holds an unrecognized token, the read
merely reports Absent (returns None) and triggers no recovery: the object
and both files are untouched and no actuation happens. -/
theorem store_absent_recovers_invalid_reads_none (σ τ : Sys) (c d : String)
    (hsf : σ.state_file = none) (hmf : σ.mode_file = none)
    (hg : σ.gpio_is_setup = true)
    (hts : τ.state_file = some c) (hc : readRecord c ∉ door_states)
    (htm : τ.mode_file = some d) (hd : readRecord d ∉ door_modes) :
    check_door_state σ HwResult.ok HwResult.ok =
      (some OPEN,
        ⟨{σ with state := some OPEN, state_file := some (OPEN ++ "\n")},
          [Ev.logOpening, Ev.sleep, Ev.logOpened], false⟩) ∧
    check_door_mode σ =
      (some AUTO,
        {σ with mode := some AUTO, mode_file := some (AUTO ++ "\n")}) ∧
    check_door_state τ HwResult.ok HwResult.ok = (none, ⟨τ, [], false⟩) ∧
    check_door_mode τ = (none, τ) := by
  obtain ⟨st, md, sf, mf, g, sm⟩ := σ
  obtain ⟨st2, md2, sf2, mf2, g2, sm2⟩ := τ
  simp only at hsf hmf hg hts htm
  subst hsf hmf hg hts htm
  refine ⟨?_, ?_, ?_, ?_⟩
  · simp [check_door_state, open_door, set_door_state_open_eq]
  · simp [check_door_mode, set_door_mode_auto_eq]
  · simp [check_door_state, hc]
  · simp [check_door_mode, hd]

/-- C3 witness: on a controller with both records missing and the GPIO
ready, the state read opens and persists, and the mode read persists
Auto; on a controller whose records hold the token banana both reads
report Absent and change nothing. -/
theorem store_absent_recovers_invalid_reads_none_witness :
    check_door_state sysFreshGpio HwResult.ok HwResult.ok =
      (some OPEN,
        ⟨{sysFreshGpio with
            state := some OPEN, state_file := some (OPEN ++ "\n")},
          [Ev.logOpening, Ev.sleep, Ev.logOpened], false⟩) ∧
    check_door_mode sysFreshGpio =
      (some AUTO,
        {sysFreshGpio with
          mode := some AUTO, mode_file := some (AUTO ++ "\n")}) ∧
    check_door_state sysGarbageRecords HwResult.ok HwResult.ok =
      (none, ⟨sysGarbageRecords, [], false⟩) ∧
    check_door_mode sysGarbageRecords = (none, sysGarbageRecords) :=
  store_absent_recovers_invalid_reads_none sysFreshGpio sysGarbageRecords
    "banana\n" "banana\n" rfl rfl rfl rfl (by decide) rfl (by decide)

/-- C3 counterexample: a state record holding the token banana makes
check_door_state return None without opening the door or persisting
anything, and a mode record holding banana makes check_door_mode return
None without persisting Auto — the default-recovery path is not triggered
for unrecognized values, refuting the claim for that case. -/
theorem invalid_record_triggers_no_recovery :
    check_door_state sysGarbageRecords HwResult.ok HwResult.ok =
      (none, ⟨sysGarbageRecords, [], false⟩) ∧
    check_door_mode sysGarbageRecords = (none, sysGarbageRecords) ∧
    Ev.sleep ∉ (check_door_state sysGarbageRecords HwResult.ok HwResult.ok).2.evs ∧
    (check_door_mode sysGarbageRecords).2.mode_file ≠ some (AUTO ++ "\n") := by
  decide

/-- C4 (amended): when the state record is absent and the actuator is
initialized, reading the door state actuates the door open (the sleep
happens), persists Open in memory and on file, and returns Open.  Before
init_gpio — in particular at the constructor's first read on a fresh
install — open_door is a no-op, so nothing is actuated or persisted even
though the read still returns Open. -/
theorem absent_state_read_opens_and_persists (σ : Sys)
    (hsf : σ.state_file = none) (hg : σ.gpio_is_setup = true) :
    check_door_state σ HwResult.ok HwResult.ok =
      (some OPEN,
        ⟨{σ with state := some OPEN, state_file := some (OPEN ++ "\n")},
          [Ev.logOpening, Ev.sleep, Ev.logOpened], false⟩) := by
  obtain ⟨st, md, sf, mf, g, sm⟩ := σ
  simp only at hsf hg
  subst hsf hg
  simp [check_door_state, open_door, set_door_state_open_eq]

/-- C4 witness: the amended behaviour at the concrete fresh store with the
GPIO initialized. -/
theorem absent_state_read_opens_and_persists_witness :
    check_door_state sysFreshGpio HwResult.ok HwResult.ok =
      (some OPEN,
        ⟨{sysFreshGpio with
            state := some OPEN, state_file := some (OPEN ++ "\n")},
          [Ev.logOpening, Ev.sleep, Ev.logOpened], false⟩) :=
  absent_state_read_opens_and_persists sysFreshGpio rfl rfl

/-- C4 counterexample: on the actual fresh install the first read happens
in the constructor, before init_gpio, so gpio_is_setup is False: the read
returns Open but the door is not actuated (no sleep) and the state record
is not persisted — the file remains absent — refuting the claim as
stated. -/
theorem absent_state_read_no_persist_without_gpio :
    check_door_state sysFresh HwResult.ok HwResult.ok =
      (some OPEN, ⟨sysFresh, [Ev.logOpening], false⟩) ∧
    (check_door_state sysFresh HwResult.ok HwResult.ok).2.sys.state_file
      = none ∧
    Ev.sleep ∉ (check_door_state sysFresh HwResult.ok HwResult.ok).2.evs := by
  decide

/-- C5 (amended): for every now strictly after sunset_with_buffer with
state Open, the auto decision chain ends in close (either through the
pre-sunrise branch or the post-buffer branch, whose comparison is the
strict sunset_with_buffer < now), for any earliest-open attribute. -/
theorem after_buffer_strictly_closes (sunrise swb : Int) (eot : Option Int)
    (nowAbs nowTod : Int) (h : swb < nowAbs) :
    autoDecision sunrise swb eot nowAbs nowTod (some OPEN) =
      some DoorAction.doClose := by
  unfold autoDecision cond2
  have h2 : ¬(sunrise < nowAbs ∧ nowAbs < swb) := by omega
  by_cases h1 : nowAbs < sunrise
  · simp [h1]
  · simp [h1, h2, h]

/-- C5 witness: at sunrise 100, sunset_with_buffer 200, now 300 the
decision for an open door is close. -/
theorem after_buffer_strictly_closes_witness :
    autoDecision 100 200 none 300 0 (some OPEN) = some DoorAction.doClose :=
  after_buffer_strictly_closes 100 200 none 300 0 (by decide)

/-- C5 counterexample: at now exactly equal to sunset_with_buffer the
comparison on source line 228 (sunset_with_buffer < now) is False, so no
branch fires and the decision is no action, not close, refuting the
boundary case the claim includes. -/
theorem close_skipped_at_buffer_boundary :
    autoDecision 100 200 none 200 0 (some OPEN) = some DoorAction.doNothing ∧
    autoDecision 100 200 none 200 0 (some OPEN) ≠ some DoorAction.doClose := by
  decide

/-- C6 (confirmed): if either hardware block of open_door or close_door
raises, the call propagates the exception with the object — in-memory
state and both files — exactly as it was, and conversely any change to
the object implies the call finished without failure and the actuation
delay ran: the state is written only after the actuation completes. -/
theorem failed_actuation_leaves_state (σ : Sys) (hw1 hw2 : HwResult) :
    ((open_door σ hw1 hw2).raised = true → (open_door σ hw1 hw2).sys = σ) ∧
    ((close_door σ hw1 hw2).raised = true → (close_door σ hw1 hw2).sys = σ) ∧
    ((open_door σ hw1 hw2).sys ≠ σ →
      (open_door σ hw1 hw2).raised = false ∧
      Ev.sleep ∈ (open_door σ hw1 hw2).evs) ∧
    ((close_door σ hw1 hw2).sys ≠ σ →
      (close_door σ hw1 hw2).raised = false ∧
      Ev.sleep ∈ (close_door σ hw1 hw2).evs) := by
  refine ⟨?_, ?_, ?_, ?_⟩ <;>
    · simp only [open_door, close_door]
      split_ifs <;>
        simp [set_door_state_open_eq, set_door_state_closed_eq]

/-- C6 witness: a motor-run failure during open_door on an initialized,
non-simulated controller raises and leaves the object unchanged. -/
theorem failed_actuation_leaves_state_witness :
    (open_door sysClosedAuto HwResult.fail HwResult.ok).raised = true ∧
    (open_door sysClosedAuto HwResult.fail HwResult.ok).sys = sysClosedAuto :=
  ⟨by decide,
    (failed_actuation_leaves_state sysClosedAuto HwResult.fail HwResult.ok).1
      (by decide)⟩

/-- C7 (confirmed): in manual mode with a healthy, initialized actuator,
when the persisted state reads closed and the last-applied state is open,
one run iteration performs exactly one close actuation — the event trace
is precisely one close_door call: logClosing, the actuation sleep,
logClosed — and the last-applied state becomes Closed (persisted); the
following iteration with the store unchanged does nothing at all. -/
theorem manual_close_exactly_once (σ : Sys) (c d : String)
    (hm : σ.mode = some MANUAL) (hmf : σ.mode_file = some d)
    (hd : readRecord d = MANUAL)
    (hs : σ.state = some OPEN) (hsf : σ.state_file = some c)
    (hc : readRecord c = CLOSED)
    (hg : σ.gpio_is_setup = true)
    (w w2 : SolarAttrs) (nA nT nA2 nT2 : Int) :
    runStep σ w nA nT HwResult.ok =
      ⟨{σ with state := some CLOSED, state_file := some (CLOSED ++ "\n")},
        [Ev.logClosing, Ev.sleep, Ev.logClosed], false⟩ ∧
    runStep {σ with state := some CLOSED, state_file := some (CLOSED ++ "\n")}
        w2 nA2 nT2 HwResult.ok =
      ⟨{σ with state := some CLOSED, state_file := some (CLOSED ++ "\n")},
        [], false⟩ := by
  obtain ⟨st, md, sf, mf, g, sm⟩ := σ
  simp only at hm hmf hs hsf hg
  subst hm hmf hs hsf hg
  constructor
  · simp [runStep, check_door_mode, check_door_state, close_door,
      set_door_state_closed_eq, hd, hc, manual_mem_door_modes,
      closed_mem_door_states, manual_ne_auto, closed_ne_open]
  · simp [runStep, check_door_mode, check_door_state, readRecord_closed_nl,
      hd, manual_mem_door_modes, closed_mem_door_states, manual_ne_auto]

/-- C7 witness: the two iterations at the concrete manual-override
controller. -/
theorem manual_close_exactly_once_witness :
    runStep sysManualPending ⟨0, 0, 0, none⟩ 0 0 HwResult.ok =
      ⟨{sysManualPending with
          state := some CLOSED, state_file := some (CLOSED ++ "\n")},
        [Ev.logClosing, Ev.sleep, Ev.logClosed], false⟩ ∧
    runStep {sysManualPending with
        state := some CLOSED, state_file := some (CLOSED ++ "\n")}
        ⟨0, 0, 0, none⟩ 0 0 HwResult.ok =
      ⟨{sysManualPending with
          state := some CLOSED, state_file := some (CLOSED ++ "\n")},
        [], false⟩ :=
  manual_close_exactly_once sysManualPending "closed\n" "manual\n"
    rfl rfl (by decide) rfl rfl (by decide) rfl ⟨0, 0, 0, none⟩ ⟨0, 0, 0, none⟩
    0 0 0 0

/-- C8 (amended): writing a valid state value through set_door_state and
reading through check_door_state yields that same value with no side
effect; set_door_state with an invalid token (or None) is rejected with
False and leaves the store untouched, so it is a record that itself holds
an unrecognized token whose subsequent read reports Absent (None). -/
theorem store_roundtrip_and_invalid (σ ρ : Sys) (hw1 hw2 : HwResult)
    (v : String) (hv : v ∈ door_states)
    (c : String) (hrf : ρ.state_file = some c)
    (hc : readRecord c ∉ door_states)
    (u : Option String) (hu : ∀ s, u = some s → s ∉ door_states) :
    check_door_state (set_door_state σ (some v)).1 hw1 hw2 =
      (some v, ⟨(set_door_state σ (some v)).1, [], false⟩) ∧
    set_door_state ρ u = (ρ, false) ∧
    (check_door_state ρ hw1 hw2).1 = none := by
  refine ⟨?_, ?_, ?_⟩
  · have hv2 : v = OPEN ∨ v = CLOSED := by simpa [door_states] using hv
    rcases hv2 with h | h
    · subst h
      exact check_door_state_reads _ hw1 hw2 (OPEN ++ "\n") OPEN
        (by simp [set_door_state_open_eq]) readRecord_open_nl
        open_mem_door_states
    · subst h
      exact check_door_state_reads _ hw1 hw2 (CLOSED ++ "\n") CLOSED
        (by simp [set_door_state_closed_eq]) readRecord_closed_nl
        closed_mem_door_states
  · cases u with
    | none => rfl
    | some s => simp [set_door_state, hu s rfl]
  · obtain ⟨st, md, sf, mf, g, sm⟩ := ρ
    simp only at hrf
    subst hrf
    simp [check_door_state, hc]

/-- C8 witness: round trip of open on a live controller; the token banana
is rejected by set_door_state, and a record already holding banana reads
as Absent. -/
theorem store_roundtrip_and_invalid_witness :
    check_door_state (set_door_state sysClosedAuto (some OPEN)).1
        HwResult.ok HwResult.ok =
      (some OPEN, ⟨(set_door_state sysClosedAuto (some OPEN)).1, [], false⟩) ∧
    set_door_state sysGarbageRecords (some "banana") =
      (sysGarbageRecords, false) ∧
    (check_door_state sysGarbageRecords HwResult.ok HwResult.ok).1 = none :=
  store_roundtrip_and_invalid sysClosedAuto sysGarbageRecords
    HwResult.ok HwResult.ok OPEN (by decide) "banana\n" rfl (by decide)
    (some "banana")
    (by intro s hs; injection hs with h; subst h; decide)

/-- C8 counterexample: on a store whose state record holds closed, writing
the invalid token banana via set_door_state is a rejected no-op, and the
subsequent read reports closed — the prior value, not Absent — refuting
the claim that writing an invalid token leaves a read reporting Absent. -/
theorem set_invalid_then_read_not_absent :
    set_door_state sysClosedAuto (some "banana") = (sysClosedAuto, false) ∧
    (check_door_state sysClosedAuto HwResult.ok HwResult.ok).1 =
      some CLOSED ∧
    (check_door_state sysClosedAuto HwResult.ok HwResult.ok).1 ≠ none := by
  decide

/-- C9 (confirmed): while gpio_is_setup is False, open_door and close_door
log and return immediately whatever the hardware would do: no exception,
no actuation sleep, and the object — in-memory state and both records —
is exactly unchanged. -/
theorem uninitialized_actuator_noop (σ : Sys) (hw1 hw2 : HwResult)
    (hg : σ.gpio_is_setup = false) :
    open_door σ hw1 hw2 = ⟨σ, [Ev.logOpening], false⟩ ∧
    close_door σ hw1 hw2 = ⟨σ, [Ev.logClosing], false⟩ := by
  constructor <;> simp [open_door, close_door, hg]

/-- C9 witness: the fresh controller before init_gpio, even with failing
hardware blocks, performs no delay and changes nothing. -/
theorem uninitialized_actuator_noop_witness :
    open_door sysFresh HwResult.fail HwResult.fail =
      ⟨sysFresh, [Ev.logOpening], false⟩ ∧
    close_door sysFresh HwResult.fail HwResult.fail =
      ⟨sysFresh, [Ev.logClosing], false⟩ :=
  uninitialized_actuator_noop sysFresh HwResult.fail HwResult.fail rfl

/-- C10 (confirmed): set_door_state / set_door_mode with any value outside
the respective enumerated list (including None) return False and leave the
whole object — in-memory field and persisted file — unchanged, and the
state file (resp. mode file) can only ever be changed by the values open
or closed (resp. auto or manual). -/
theorem set_invalid_rejected_writes_only_valid (σ : Sys) (v u : Option String)
    (hv : ∀ s, v = some s → s ∉ door_states)
    (hu : ∀ s, u = some s → s ∉ door_modes) :
    set_door_state σ v = (σ, false) ∧
    set_door_mode σ u = (σ, false) ∧
    (∀ (τ : Sys) (x : Option String),
      (set_door_state τ x).1.state_file ≠ τ.state_file →
        x = some OPEN ∨ x = some CLOSED) ∧
    (∀ (τ : Sys) (x : Option String),
      (set_door_mode τ x).1.mode_file ≠ τ.mode_file →
        x = some AUTO ∨ x = some MANUAL) := by
  refine ⟨?_, ?_, ?_, ?_⟩
  · cases v with
    | none => rfl
    | some s => simp [set_door_state, hv s rfl]
  · cases u with
    | none => rfl
    | some s => simp [set_door_mode, hu s rfl]
  · intro τ x hx
    cases x with
    | none => simp [set_door_state] at hx
    | some s =>
      by_cases hs : s ∈ door_states
      · have h2 : s = OPEN ∨ s = CLOSED := by simpa [door_states] using hs
        rcases h2 with h | h <;> simp [h]
      · simp [set_door_state, hs] at hx
  · intro τ x hx
    cases x with
    | none => simp [set_door_mode] at hx
    | some s =>
      by_cases hs : s ∈ door_modes
      · have h2 : s = AUTO ∨ s = MANUAL := by simpa [door_modes] using hs
        rcases h2 with h | h <;> simp [h]
      · simp [set_door_mode, hs] at hx

/-- C10 witness: the token banana is rejected by both setters on a live
controller, changing nothing. -/
theorem set_invalid_rejected_writes_only_valid_witness :
    set_door_state sysClosedAuto (some "banana") = (sysClosedAuto, false) ∧
    set_door_mode sysClosedAuto (some "banana") = (sysClosedAuto, false) :=
  ⟨(set_invalid_rejected_writes_only_valid sysClosedAuto
      (some "banana") (some "banana")
      (by intro s hs; injection hs with h; subst h; decide)
      (by intro s hs; injection hs with h; subst h; decide)).1,
    (set_invalid_rejected_writes_only_valid sysClosedAuto
      (some "banana") (some "banana")
      (by intro s hs; injection hs with h; subst h; decide)
      (by intro s hs; injection hs with h; subst h; decide)).2.1⟩
